import Mathlib

/-!
Verification of the PageSpeed analysis/reporting pipeline.

The development shallowly embeds the Python sources:
`pagespeed_analyzer.py` (metric rating, recommendation extraction,
security/cookie inspection, aggregate analysis), `utils.py`
(score status) and `pdf_generator.py` (report composition).
Machine floats of the source are modelled as rationals; Python dicts
become association lists or structures with `Option` fields (a `none`
field stands for an absent key); network calls become explicit inputs;
exceptions become `Except`/error constructors.
-/

/-- A Lighthouse audit entry as consumed by `_get_metric_rating` and
`_extract_recommendations` in `pagespeed_analyzer.py`: an optional
`title`, an optional numeric `score`, an optional `scoreDisplayMode`,
an optional `displayValue`, and the `details.type` field collapsed to
an optional string (`none` when either `details` or `details.type` is
missing). -/
structure Audit where
  title : Option String
  score : Option ℚ
  scoreDisplayMode : Option String
  displayValue : Option String
  detailsType : Option String
deriving DecidableEq, Repr

/-- Embedding of `PageSpeedAnalyzer._get_metric_rating`
(`pagespeed_analyzer.py` lines 410-430): with a score present the
fixed thresholds 0.9 / 0.5 pick good / average / poor; with no score
the function falls back to the metric's `scoreDisplayMode`, defaulting
to `"not_available"`. -/
def getMetricRating (metric : Audit) : String :=
  match metric.score with
  | some score =>
    if score ≥ 0.9 then "good"
    else if score ≥ 0.5 then "average"
    else "poor"
  | none => metric.scoreDisplayMode.getD ("not_available")

/-- The two audit identifiers treated as always-critical by
`_extract_recommendations` (line 450). -/
def criticalIds : List String := ["render-blocking-resources", "largest-contentful-paint"]

/-- Embedding of the classification loop of
`PageSpeedAnalyzer._extract_recommendations` (lines 442-460): walks
the audits in iteration order and appends each surviving title to the
critical / important / other bucket, mirroring the source's branch
structure (`audit.get("score", 1)` becomes `Option.getD · 1`). -/
def extractBuckets : List (String × Audit) → List String × List String × List String
  | [] => ([], [], [])
  | (aid, a) :: rest =>
    let r := extractBuckets rest
    match a.title with
    | none => r
    | some t =>
      if a.score = some 1 then r
      else if a.detailsType = some ("opportunity") then
        if a.score.getD 1 = 0 ∨ aid ∈ criticalIds then (t :: r.1, r.2.1, r.2.2)
        else if a.score.getD 1 ≤ 0.5 then (r.1, t :: r.2.1, r.2.2)
        else (r.1, r.2.1, t :: r.2.2)
      else if a.score.getD 1 ≤ 0.5 then (r.1, r.2.1, t :: r.2.2)
      else r

/-- Embedding of the tail of `_extract_recommendations` (lines
462-468): the flat recommendation list is critical ++ important ++
first ten of other, while `recommendation_priorities` reports the
untruncated bucket sizes. -/
def extractRecommendations (audits : List (String × Audit)) :
    List String × (ℕ × ℕ × ℕ) :=
  let b := extractBuckets audits
  (b.1 ++ b.2.1 ++ b.2.2.take 10, (b.1.length, b.2.1.length, b.2.2.length))

/-- Characterization of the critical bucket: a surviving
(titled, not perfectly scored) opportunity entry with score 0 or a
listed critical identifier. -/
def critPick (p : String × Audit) : Option String :=
  match p.2.title with
  | none => none
  | some t =>
    if p.2.score ≠ some 1 ∧ p.2.detailsType = some ("opportunity") ∧
        (p.2.score.getD 1 = 0 ∨ p.1 ∈ criticalIds) then some t else none

/-- Characterization of the important bucket: a surviving opportunity
entry that is not critical and whose score (defaulting to 1) is at
most one half. -/
def impPick (p : String × Audit) : Option String :=
  match p.2.title with
  | none => none
  | some t =>
    if p.2.score ≠ some 1 ∧ p.2.detailsType = some ("opportunity") ∧
        ¬ (p.2.score.getD 1 = 0 ∨ p.1 ∈ criticalIds) ∧ p.2.score.getD 1 ≤ 0.5
      then some t else none

/-- Characterization of the other bucket: a surviving entry that is
either a non-critical opportunity with score above one half, or a
non-opportunity entry with score at most one half. -/
def othPick (p : String × Audit) : Option String :=
  match p.2.title with
  | none => none
  | some t =>
    if p.2.score ≠ some 1 ∧
        ((p.2.detailsType = some ("opportunity") ∧
            ¬ (p.2.score.getD 1 = 0 ∨ p.1 ∈ criticalIds) ∧
            ¬ p.2.score.getD 1 ≤ 0.5) ∨
          (p.2.detailsType ≠ some ("opportunity") ∧ p.2.score.getD 1 ≤ 0.5))
      then some t else none

/-- Python `int()` applied to a rational: truncation toward zero
(used for `int(score * 100)` at line 88 of `pagespeed_analyzer.py`). -/
def pyInt (q : ℚ) : ℤ :=
  if q < 0 then -((-q).floor) else q.floor

/-- The `KEY_METRICS` mapping of `config.py` (lines 175-182), in its
insertion order. -/
def keyMetrics : List (String × String) :=
  [("first-contentful-paint", "Перший вміст"),
   ("speed-index", "Індекс швидкості"),
   ("largest-contentful-paint", "Найбільший вміст"),
   ("interactive", "Час до інтерактивності"),
   ("total-blocking-time", "Загальний час блокування"),
   ("cumulative-layout-shift", "Сукупне зміщення макета")]

/-- The metrics loop of `analyze` (lines 97-103): for each key metric
present among the audits, record display name, display value
(defaulting to N/A) and the metric rating. -/
def buildMetrics (audits : List (String × Audit)) :
    List (String × String × String) :=
  keyMetrics.filterMap fun mn =>
    (audits.lookup mn.1).map fun a => (mn.2, a.displayValue.getD ("N/A"), getMetricRating a)

/-- The `lighthouseResult` part of a PageSpeed API payload.
`perfScore` collapses the chain
`["categories"]["performance"]["score"]` (`none` when any link is
missing, which raises `KeyError` in the source); `audits` is `none`
when the `audits` key is missing. -/
structure LHResult where
  perfScore : Option ℚ
  audits : Option (List (String × Audit))
deriving DecidableEq, Repr

/-- A decoded PageSpeed API response body. `apiError` models the
optional `error` object together with its optional `message` field;
`lighthouseResult` is `none` when the key is absent. -/
structure ApiData where
  apiError : Option (Option String)
  lighthouseResult : Option LHResult
deriving DecidableEq, Repr

/-- The well-formed payload of a successful `analyze` call: overall
score, metrics table, flat recommendations, and the
`recommendation_priorities` counts. -/
structure PsResults where
  score : ℤ
  metrics : List (String × String × String)
  recommendations : List String
  recommendationPriorities : ℕ × ℕ × ℕ
deriving DecidableEq, Repr

/-- What `analyze` returns: either a well-formed results dictionary or
a dictionary carrying an `error` key with a message. -/
inductive AnalyzeResult where
  | ok (r : PsResults)
  | err (msg : String)
deriving DecidableEq, Repr

/-- Embedding of `PageSpeedAnalyzer.analyze` (lines 44-118). The
network round-trip becomes the explicit `transport` input: a
`RequestException` (network error, timeout, non-2xx status from
`raise_for_status`) is `Except.error`, a decoded body is `Except.ok`.
Every exception path of the source (transport failure, API error
object, missing `lighthouseResult`, `KeyError` on the score chain or
on `audits`) ends in the `err` constructor, mirroring the source's
`except` clauses returning `{"error": ...}`. -/
def analyze (transport : Except String ApiData) : AnalyzeResult :=
  match transport with
  | .error e => .err ("Помилка під час запиту до API: " ++ e)
  | .ok data =>
    match data.apiError with
    | some msg => .err (msg.getD ("Невідома помилка API"))
    | none =>
      match data.lighthouseResult with
      | none => .err ("У відповіді API відсутні результати Lighthouse")
      | some lr =>
        match lr.perfScore with
        | none => .err ("Помилка у структурі відповіді API: " ++ "score")
        | some s =>
          match lr.audits with
          | none => .err ("Помилка у структурі відповіді API: " ++ "audits")
          | some audits =>
            let recs := extractRecommendations audits
            .ok { score := pyInt (s * 100),
                  metrics := buildMetrics audits,
                  recommendations := recs.1,
                  recommendationPriorities := recs.2 }

/-- Outcome of one sub-check inside `analyze_with_all_metrics`: the
source tests `"error" not in result`, so a sub-check result is either
a dictionary with an `error` key (`failed`) or a successful payload
(`succeeded`, abstracted to a string). -/
inductive SubOutcome where
  | failed (msg : String)
  | succeeded (payload : String)
deriving DecidableEq, Repr

/-- A value of the aggregate dictionary: either a nested dictionary
(the initial `{}` placeholders and the pagespeed device map) or a
successful sub-check payload. -/
inductive AggVal where
  | dict (entries : List (String × String))
  | payload (p : String)
deriving DecidableEq, Repr

/-- Embedding of `PageSpeedAnalyzer.analyze_with_all_metrics` (lines
361-408): the result dictionary is created with all four keys bound to
`{}`; each sub-check value is written only when that sub-check
returned without an `error` key. The five network-backed sub-calls
become the five explicit inputs. -/
def analyzeWithAllMetrics
    (mobile desktop seo accessibility security : SubOutcome) :
    List (String × AggVal) :=
  let ps :=
    (match mobile with
     | .succeeded p => [("mobile", p)]
     | .failed _ => []) ++
    (match desktop with
     | .succeeded p => [("desktop", p)]
     | .failed _ => [])
  [("pagespeed", .dict ps),
   ("seo", match seo with | .succeeded p => .payload p | .failed _ => .dict []),
   ("accessibility", match accessibility with | .succeeded p => .payload p | .failed _ => .dict []),
   ("security", match security with | .succeeded p => .payload p | .failed _ => .dict [])]

/-- A cookie of a `requests` cookie jar (an `http.cookiejar.Cookie`):
its name, its `secure` attribute, and the `_rest` mapping — the place
where non-standard attributes such as HttpOnly and SameSite are
stored; they are not top-level attributes of the object. -/
structure Cookie where
  name : String
  secure : Bool
  rest : List (String × Option String)
deriving DecidableEq, Repr

/-- The dictionary `_analyze_cookies` returns when it completes. -/
structure CookieReport where
  count : ℕ
  secure : Bool
  httponly : Bool
  samesite : Bool
deriving DecidableEq, Repr

/-- A key handed to `__getitem__` of the cookie jar. The API expects a
cookie *name* (a string), but line 580 of `pagespeed_analyzer.py`
indexes the jar with the Cookie object obtained by iterating it. -/
inductive PyKey where
  | str (s : String)
  | cookieObj (c : Cookie)
deriving DecidableEq, Repr

/-- The comparison `cookie.name == name` inside
`RequestsCookieJar._find_no_duplicates`: a string key matches by name
equality; a Cookie object compares unequal to every name string
(Python equality between a `str` and a `Cookie` is always False). -/
def keyMatches (key : PyKey) (c : Cookie) : Bool :=
  match key with
  | .str s => c.name == s
  | .cookieObj _ => false

/-- `cookies[key]` on a `requests` cookie jar: the first cookie whose
name matches the key, else a `KeyError` is raised. -/
def jarGet (jar : List Cookie) (key : PyKey) : Except String Cookie :=
  match jar.find? (keyMatches key) with
  | some c => .ok c
  | none => .error ("KeyError")

/-- The lowercased keys of `http.cookiejar.Cookie.__dict__`, the
dictionary line 580 builds. Neither `httponly` nor `samesite` occurs
among them: those attributes live inside the nested `_rest`
mapping. -/
def cookieDictKeys : List String :=
  ["version", "name", "value", "port", "port_specified", "domain",
   "domain_specified", "domain_initial_dot", "path", "path_specified",
   "secure", "expires", "discard", "comment", "comment_url", "rfc2109",
   "_rest"]

/-- Key-presence test on the lowercased `__dict__`. -/
def cookieDictHas (k : String) : Bool :=
  cookieDictKeys.contains k

/-- Truthiness of `cookie_dict.get("secure")` (line 583): `secure` is
a genuine attribute, so the read yields the boolean itself. -/
def dictSecureTruthy (c : Cookie) : Bool :=
  cookieDictHas ("secure") && c.secure

/-- Truthiness of `cookie_dict.get("httponly")` (line 586):
`httponly` is no `__dict__` key (the flag sits inside `_rest`), so the
read yields None, which is falsy. -/
def dictHttponlyTruthy (_c : Cookie) : Bool :=
  cookieDictHas ("httponly")

/-- The test `"samesite" in cookie_dict and cookie_dict["samesite"] in
["lax", "strict"]` (line 590): the membership conjunct is already
false (`samesite` sits inside `_rest`), so the value comparison is
never reached. -/
def dictSamesiteOk (_c : Cookie) : Bool :=
  cookieDictHas ("samesite")

/-- The attribute-counting loop of `_analyze_cookies` (lines 579-591):
each iteration first evaluates `cookies[cookie]` — the jar indexed
with the Cookie object itself — and only then counts attributes from
the lowercased `__dict__`; a `KeyError` from the lookup aborts the
loop. -/
def cookieCounts (jar : List Cookie) : List Cookie → Except String (ℕ × ℕ × ℕ)
  | [] => .ok (0, 0, 0)
  | cookie :: rest =>
    match jarGet jar (.cookieObj cookie) with
    | .error e => .error e
    | .ok found =>
      match cookieCounts jar rest with
      | .error e => .error e
      | .ok (s, h, ss) =>
        .ok (s + (if dictSecureTruthy found then 1 else 0),
             h + (if dictHttponlyTruthy found then 1 else 0),
             ss + (if dictSamesiteOk found then 1 else 0))

/-- Embedding of `PageSpeedAnalyzer._analyze_cookies` (lines 554-598):
with no cookies it returns the all-true report; otherwise it runs the
counting loop — whose first jar lookup raises — and would compare
each attribute count against the total. -/
def analyzeCookies (cookies : List Cookie) : Except String CookieReport :=
  if cookies.length = 0 then
    .ok { count := 0, secure := true, httponly := true, samesite := true }
  else
    match cookieCounts cookies cookies with
    | .error e => .error e
    | .ok (s, h, ss) =>
      .ok { count := cookies.length,
            secure := s == cookies.length,
            httponly := h == cookies.length,
            samesite := ss == cookies.length }

/-- The HTTP response `analyze_security` inspects: the final URL after
redirects, the raw response headers, and the cookies set by the
response. -/
structure SecResponse where
  finalUrl : String
  headers : List (String × String)
  cookies : List Cookie
deriving DecidableEq, Repr

/-- The seven security headers checked by `analyze_security` (lines
298-306), in the insertion order of the source. -/
def securityHeaderNames : List String :=
  ["Strict-Transport-Security", "Content-Security-Policy",
   "X-Content-Type-Options", "X-Frame-Options", "X-XSS-Protection",
   "Referrer-Policy", "Permissions-Policy"]

/-- Header lookup with the `Permissions-Policy`/`Feature-Policy`
fallback of line 305. -/
def securityHeaderValue (headers : List (String × String)) (name : String) :
    Option String :=
  if name = "Permissions-Policy" then
    match headers.lookup name with
    | some v => some v
    | none => headers.lookup ("Feature-Policy")
  else headers.lookup name

/-- The result dictionary of `analyze_security` (lines 317-325),
keeping the fields the claims touch. -/
structure SecurityResults where
  usesHttps : Bool
  securityHeaders : List (String × Option String)
  secureCookies : Bool
  httponlyCookies : Bool
  samesiteCookies : Bool
  recommendations : List String
deriving DecidableEq, Repr

/-- Embedding of `PageSpeedAnalyzer.analyze_security` (lines 279-359):
HTTPS detection, the seven-header scan, the cookie analysis and the
recommendation generation in source order; an exception escaping
`_analyze_cookies` (line 314) is caught by the surrounding handler,
which returns the error dictionary instead of a result. -/
def analyzeSecurity (url : String) (resp : SecResponse) :
    Except String SecurityResults :=
  match analyzeCookies resp.cookies with
  | .error e => .error ("Помилка при аналізі безпеки: " ++ e)
  | .ok cookies =>
    let isHttps := url.startsWith ("https://")
    let redirectedToHttps :=
      resp.finalUrl.startsWith ("https://") && url.startsWith ("http://")
    let usesHttps := isHttps || redirectedToHttps
    let httpsRecs :=
      if usesHttps then []
      else ["Перейдіть на HTTPS для захисту даних користувачів"]
    let headerRecs := securityHeaderNames.filterMap fun h =>
      match securityHeaderValue resp.headers h with
      | some _ => none
      | none => some ("Додайте заголовок безпеки " ++ h)
    let cookieRecs :=
      if cookies.count > 0 then
        (if cookies.secure then []
         else ["Додайте атрибут \x27Secure\x27 до всіх cookie для захисту передачі даних"]) ++
        (if cookies.httponly then []
         else ["Додайте атрибут \x27HttpOnly\x27 до всіх cookie для захисту від XSS атак"]) ++
        (if cookies.samesite then []
         else ["Додайте атрибут \x27SameSite\x27 до cookie для захисту від CSRF атак"])
      else []
    .ok { usesHttps := usesHttps,
          securityHeaders := securityHeaderNames.map fun h => (h, securityHeaderValue resp.headers h),
          secureCookies := cookies.secure,
          httponlyCookies := cookies.httponly,
          samesiteCookies := cookies.samesite,
          recommendations := httpsRecs ++ headerRecs ++ cookieRecs }

/-- A flowable of the generated PDF document, abstracting the
ReportLab `Paragraph` (split by style), `Spacer` and `Table` elements
appended by `pdf_generator.py`. -/
inductive PdfElem where
  | title (s : String)
  | heading (s : String)
  | subheading (s : String)
  | para (s : String)
  | small (s : String)
  | spacer
  | table (rows : List (List String))
deriving DecidableEq, Repr

/-- One device's analysis dictionary as consumed by
`generate_report`: the source reads it with `.get("score", 0)`,
`"metrics" in`, and `.get("recommendations", [])`, so each field is
optional. -/
structure DeviceResults where
  score : Option ℤ
  metrics : Option (List (String × String × String))
  recommendations : Option (List String)
deriving DecidableEq, Repr

/-- Embedding of `utils.get_score_status` with the
`PERFORMANCE_RATINGS` table of `config.py`: the highest band whose
`min` the score reaches. -/
def getScoreStatus (score : ℤ) : String :=
  if score ≥ 90 then "Відмінно"
  else if score ≥ 50 then "Задовільно"
  else "Потребує покращення"

/-- Python `round()` on a rational; ties cannot occur at the single
call site (`score / 100 * 20` with an integer score has fractional
part in {0, .2, .4, .6, .8}), so floor of `q + 1/2` agrees with
banker's rounding there. -/
def pyRound (q : ℚ) : ℤ :=
  (q + 1/2).floor

/-- The `create_bar` helper inside `_add_performance_chart` (lines
303-308): one block character per five points, at least one when the
score is positive. -/
def createBar (score : ℤ) : String :=
  let n := pyRound ((score : ℚ) / 100 * 20)
  let n := if score > 0 ∧ n = 0 then 1 else n
  String.mk (List.replicate n.toNat '█')

/-- `_add_header_and_info` (lines 201-220): document title, URL line
and generation timestamp. -/
def headerSection (url now : String) : List PdfElem :=
  [.title ("Звіт аналізу швидкості сайту"), .spacer,
   .para ("URL: " ++ url),
   .para ("Дата аналізу: " ++ now), .spacer]

/-- `mobile_results.get("score", 0) if mobile_results else 0`
(lines 236-237 and 299-300). -/
def deviceScore (r : Option DeviceResults) : ℤ :=
  match r with
  | none => 0
  | some d => d.score.getD 0

/-- `_add_performance_scores` (lines 222-283): heading plus the
three-row device/score/status table. -/
def scoresSection (mobileScore desktopScore : ℤ) : List PdfElem :=
  [.heading ("Загальні оцінки продуктивності"), .spacer,
   .table [["Пристрій", "Оцінка", "Статус"],
           ["Мобільний", toString mobileScore ++ "/100", getScoreStatus mobileScore],
           ["Десктоп", toString desktopScore ++ "/100", getScoreStatus desktopScore]],
   .spacer]

/-- `_add_metrics_section` (lines 380-442): nothing when the metrics
mapping is empty, otherwise heading plus the metrics table. -/
def metricsSection (title : String) (metrics : List (String × String × String)) :
    List PdfElem :=
  if metrics = [] then []
  else
    [.heading title, .spacer,
     .table (["Метрика", "Значення", "Оцінка"] :: metrics.map fun m => [m.1, m.2.1, m.2.2]),
     .spacer]

/-- The guard `if mobile_results and "metrics" in mobile_results` of
`generate_report` (lines 167 and 176) in front of
`_add_metrics_section`. -/
def metricsPart (r : Option DeviceResults) (title : String) : List PdfElem :=
  match r with
  | some d =>
    match d.metrics with
    | some ms => metricsSection title ms
    | none => []
  | none => []

/-- `_add_performance_chart` (lines 285-378): heading plus the
three-row bar-visualization table. -/
def chartSection (mobileScore desktopScore : ℤ) : List PdfElem :=
  [.heading ("Порівняння продуктивності"), .spacer,
   .table [["Платформа", "Візуалізація (кожен █ = 5 балів)", ""],
           ["Мобільний (" ++ toString mobileScore ++ "/100)", createBar mobileScore,
            toString mobileScore ++ "%"],
           ["Десктоп (" ++ toString desktopScore ++ "/100)", createBar desktopScore,
            toString desktopScore ++ "%"]],
   .spacer]

/-- The high-priority keyword list of `_add_recommendations_section`
(lines 471-475). -/
def highPriorityKeywords : List String :=
  ["великого контенту", "LCP", "FCP", "Time to Interactive",
   "блокують відображення", "First Contentful Paint",
   "Largest Contentful Paint", "критично"]

/-- Image-category keywords (line 490). -/
def imageKeywords : List String := ["зображен", "картин", "формат", "picture"]

/-- Code-category keywords (line 495). -/
def codeKeywords : List String := ["css", "javascript", "js", "код", "script"]

/-- Performance-category keywords (line 500). -/
def perfKeywords : List String := ["швидкість", "кеш", "час", "завантаження"]

/-- Python `str.lower`, restricted to the ASCII mapping of
`Char.toLower`; the Cyrillic keywords of the source are already
lowercase, so only the Latin-letter keywords are affected. -/
def lowerAscii (s : String) : String :=
  s.map Char.toLower

/-- Python's substring test `pat in s`. -/
def containsSub (s pat : String) : Bool :=
  decide (2 ≤ (s.splitOn pat).length)

/-- `is_high_priority` (line 488): some high-priority keyword,
lowercased, occurs in the lowercased recommendation. -/
def recIsHigh (recLower : String) : Bool :=
  highPriorityKeywords.any fun kw => containsSub recLower (lowerAscii kw)

/-- The if/elif category dispatch of lines 490-506: 0 images,
1 code, 2 performance, 3 other. -/
def recCategory (recLower : String) : ℕ :=
  if imageKeywords.any (fun kw => containsSub recLower kw) then 0
  else if codeKeywords.any (fun kw => containsSub recLower kw) then 1
  else if perfKeywords.any (fun kw => containsSub recLower kw) then 2
  else 3

/-- `_add_recommendation_category` (lines 526-549): nothing when both
priority lists are empty, otherwise subheading plus marked
paragraphs. -/
def addRecommendationCategory (title : String) (highItems normalItems : List String) :
    List PdfElem :=
  if highItems = [] ∧ normalItems = [] then []
  else
    [.subheading title] ++
    highItems.map (fun r => .para ("[!!!] " ++ r)) ++
    normalItems.map (fun r => .para ("[!] " ++ r)) ++
    [.spacer]

/-- Embedding of `_add_recommendations_section` (lines 444-524): the
mobile and desktop lists are merged and deduplicated (the source goes
through `set()`, whose iteration order is arbitrary; `List.dedup`
fixes one order while keeping the same set); when nothing remains the
function adds no element at all, otherwise heading, intro, the three
categories, the leftover recommendations and the priority legend. The
one-pass loop of the source appends each recommendation to exactly one
of the seven lists, which the order-preserving filters reproduce. -/
def addRecommendationsSection (mobileRecs desktopRecs : List String) : List PdfElem :=
  let allRecs := (mobileRecs ++ desktopRecs).dedup
  if allRecs = [] then []
  else
    let inCat := fun (c : ℕ) (high : Bool) =>
      allRecs.filter fun r =>
        recCategory (lowerAscii r) == c && recIsHigh (lowerAscii r) == high
    let otherRecs := allRecs.filter fun r => recCategory (lowerAscii r) == 3
    [.heading ("Рекомендації щодо оптимізації"), .spacer,
     .para ("Нижче наведені рекомендації для покращення продуктивності сайту. Виконання цих рекомендацій може значно підвищити швидкість завантаження."),
     .spacer] ++
    addRecommendationCategory ("Оптимізація зображень:") (inCat 0 true) (inCat 0 false) ++
    addRecommendationCategory ("Оптимізація коду:") (inCat 1 true) (inCat 1 false) ++
    addRecommendationCategory ("Загальна продуктивність:") (inCat 2 true) (inCat 2 false) ++
    (if otherRecs = [] then []
     else [.subheading ("Інші рекомендації:")] ++ otherRecs.map fun r => .para ("• " ++ r)) ++
    [.spacer, .subheading ("Пріоритети рекомендацій:"),
     .small ("[!!!] Високий пріоритет - критичні проблеми, що значно впливають на швидкість"),
     .small ("[!] Середній пріоритет - важливі оптимізації з помірним впливом"),
     .small ("• Низький пріоритет - незначні покращення")]

/-- Embedding of `PDFReportGenerator.generate_report` (lines 130-199):
header, score table, the two optional metrics sections, the comparison
chart, and — only when both result dictionaries are given — the
recommendations section. `now` stands for the generation timestamp
read from the clock. -/
def generateReport (url now : String)
    (mobileResults desktopResults : Option DeviceResults) : List PdfElem :=
  let mScore := deviceScore mobileResults
  let dScore := deviceScore desktopResults
  headerSection url now ++
  scoresSection mScore dScore ++
  metricsPart mobileResults ("Метрики для мобільних пристроїв") ++
  metricsPart desktopResults ("Метрики для комп\x27ютерів") ++
  chartSection mScore dScore ++
  (match mobileResults, desktopResults with
   | some m, some d =>
     addRecommendationsSection (m.recommendations.getD []) (d.recommendations.getD [])
   | _, _ => [])

/-- Modelled from the spec: the impact levels of the Recommendation
Prioritizer (spec §3, §4.2). The prioritizer itself is code of this
repository that is not among the provided sources (the repository
carries several drafts of the bot; the provided draft's
`_extract_recommendations` uses the critical/important/other buckets
embedded above instead). -/
inductive Impact where
  | high
  | medium
  | low
deriving DecidableEq, Repr, Fintype

/-- Modelled from the spec: the difficulty levels of the
Recommendation Prioritizer (spec §3, §4.2). -/
inductive Difficulty where
  | easy
  | medium
  | hard
deriving DecidableEq, Repr, Fintype

/-- Modelled from the spec: the fixed category enumeration of a
Recommendation (spec §3). -/
inductive Category where
  | images
  | javascript
  | css
  | server
  | fonts
  | performance
  | other
deriving DecidableEq, Repr

/-- Modelled from the spec: impact weights 3/2/1 for high/medium/low
(spec §4.2 step 5). -/
def impactWeight : Impact → ℚ
  | .high => 3
  | .medium => 2
  | .low => 1

/-- Modelled from the spec: difficulty weights 1/2/3 for
easy/medium/hard (spec §4.2 step 5). -/
def difficultyWeight : Difficulty → ℚ
  | .easy => 1
  | .medium => 2
  | .hard => 3

/-- Modelled from the spec: the composite priority score
`impact_weight / difficulty_weight + impact_weight * 0.01`
(spec §4.2 step 5). -/
def priorityScore (i : Impact) (d : Difficulty) : ℚ :=
  impactWeight i / difficultyWeight d + impactWeight i * (1/100)

/-- Modelled from the spec: an AuditEntry as the Prioritizer receives
it (spec §3): identifier, optional title, optional score, display
mode, optional declared aggregate savings, and the raw numeric value
with its unit for numeric entries. -/
structure SpecAuditEntry where
  id : String
  title : Option String
  score : Option ℚ
  displayMode : String
  savingsMs : Option ℚ
  numericValue : Option ℚ
  numericUnit : Option String
deriving DecidableEq, Repr

/-- Modelled from the spec: the display modes a surviving entry may
carry (spec §4.2 step 1). -/
def allowedDisplayModes : List String := ["opportunity", "numeric", "binary"]

/-- Modelled from the spec: whether a numeric entry's unit is
time-based (spec §4.2 step 2 names no unit list; this fixes the
millisecond/second spellings). -/
def isTimeUnit : Option String → Bool
  | some u => ["millisecond", "ms", "second", "s"].contains u
  | none => false

/-- Modelled from the spec: potential savings in milliseconds
(spec §4.2 step 2): the declared aggregate savings for opportunity
entries, the raw numeric value for time-based numeric entries,
otherwise 0. -/
def savingsOf (e : SpecAuditEntry) : ℚ :=
  if e.displayMode = "opportunity" then e.savingsMs.getD 0
  else if e.displayMode = "numeric" ∧ isTimeUnit e.numericUnit then e.numericValue.getD 0
  else 0

/-- Modelled from the spec: the impact thresholds
(spec §4.2 step 3): at least 1000 ms high, at least 250 ms medium,
otherwise low. -/
def impactLevel (ms : ℚ) : Impact :=
  if ms ≥ 1000 then .high
  else if ms ≥ 250 then .medium
  else .low

/-- Modelled from the spec: the static audit-id → (difficulty,
category) table (spec §4.2 step 4, §9). The spec fixes only the
`render-blocking-resources` row (hard, performance — §8) and the
default; the remaining rows are representative members of the closed
enumeration. -/
def auditTable : List (String × Difficulty × Category) :=
  [("render-blocking-resources", (.hard, .performance)),
   ("largest-contentful-paint", (.hard, .performance)),
   ("uses-optimized-images", (.easy, .images)),
   ("uses-webp-images", (.easy, .images)),
   ("uses-text-compression", (.easy, .server)),
   ("server-response-time", (.medium, .server)),
   ("unminified-css", (.easy, .css)),
   ("unminified-javascript", (.easy, .javascript)),
   ("unused-javascript", (.medium, .javascript)),
   ("font-display", (.easy, .fonts))]

/-- Modelled from the spec: table lookup with the
{difficulty: medium, category: other} default for unknown identifiers
(spec §4.2 step 4). -/
def lookupDC (id : String) : Difficulty × Category :=
  (auditTable.lookup id).getD (.medium, .other)

/-- Modelled from the spec: a Recommendation derived from an
AuditEntry (spec §3). -/
structure SpecRecommendation where
  id : String
  title : String
  impact : Impact
  difficulty : Difficulty
  category : Category
  savings : ℚ
  priority : ℚ
deriving DecidableEq, Repr

/-- Modelled from the spec: per-entry classification of the
Recommendation Prioritizer (spec §4.2 steps 1-5): discard entries with
no title, a perfect score, or a display mode outside
{opportunity, numeric, binary}; otherwise compute savings, impact,
difficulty, category and the priority score. -/
def specClassify (e : SpecAuditEntry) : Option SpecRecommendation :=
  match e.title with
  | none => none
  | some t =>
    if e.score = some 1 then none
    else if ¬ e.displayMode ∈ allowedDisplayModes then none
    else
      let s := savingsOf e
      let i := impactLevel s
      let dc := lookupDC e.id
      some { id := e.id, title := t, impact := i, difficulty := dc.1,
             category := dc.2, savings := s, priority := priorityScore i dc.1 }

/-- A metric with no score but a `scoreDisplayMode`, as Lighthouse
emits for binary audits. -/
def metricNoScore : Audit :=
  { title := some ("Uses HTTPS"), score := none,
    scoreDisplayMode := some ("binary"), displayValue := none,
    detailsType := none }

/-- A metric with score 0.95. -/
def metric95 : Audit :=
  { title := some ("First Contentful Paint"), score := some (95/100),
    scoreDisplayMode := some ("numeric"), displayValue := some ("1.2 s"),
    detailsType := none }

/-- An opportunity entry declaring 1500 ms of savings. -/
def entry1500 : SpecAuditEntry :=
  { id := "some-audit-a", title := some ("Entry A"), score := some (1/2),
    displayMode := "opportunity", savingsMs := some 1500,
    numericValue := none, numericUnit := none }

/-- An opportunity entry declaring 500 ms of savings. -/
def entry500 : SpecAuditEntry :=
  { id := "some-audit-b", title := some ("Entry B"), score := some (1/2),
    displayMode := "opportunity", savingsMs := some 500,
    numericValue := none, numericUnit := none }

/-- An opportunity entry declaring 100 ms of savings. -/
def entry100 : SpecAuditEntry :=
  { id := "some-audit-c", title := some ("Entry C"), score := some (1/2),
    displayMode := "opportunity", savingsMs := some 100,
    numericValue := none, numericUnit := none }

/-- The recommendation `specClassify` derives from `entry1500`: the
identifier is unknown to the table, so difficulty medium and category
other; 1500 ms gives impact high and priority 3/2 + 3/100. -/
def rec1500 : SpecRecommendation :=
  { id := "some-audit-a", title := "Entry A", impact := .high,
    difficulty := .medium, category := .other, savings := 1500,
    priority := 153/100 }

/-- A high-impact entry whose identifier the table maps to difficulty
easy. -/
def entryEasy : SpecAuditEntry :=
  { id := "uses-optimized-images", title := some ("Efficiently encode images"),
    score := some 0, displayMode := "opportunity", savingsMs := some 1500,
    numericValue := none, numericUnit := none }

/-- The audit entry of spec §8: render-blocking resources, score 0,
opportunity, 1200 ms of savings. -/
def entryRBR : SpecAuditEntry :=
  { id := "render-blocking-resources",
    title := some ("Eliminate render-blocking resources"),
    score := some 0, displayMode := "opportunity", savingsMs := some 1200,
    numericValue := none, numericUnit := none }

/-- The recommendation derived from `entryEasy`: impact high,
difficulty easy, priority 3/1 + 3/100. -/
def recEasy : SpecRecommendation :=
  { id := "uses-optimized-images", title := "Efficiently encode images",
    impact := .high, difficulty := .easy, category := .images,
    savings := 1500, priority := 303/100 }

/-- The recommendation derived from `entryRBR`: impact high,
difficulty hard, priority 3/3 + 3/100. -/
def recRBR : SpecRecommendation :=
  { id := "render-blocking-resources",
    title := "Eliminate render-blocking resources", impact := .high,
    difficulty := .hard, category := .performance, savings := 1200,
    priority := 103/100 }

/-- An entry with no title, discarded by the prioritizer. -/
def entryNoTitle : SpecAuditEntry :=
  { id := "diagnostic-x", title := none, score := some 0,
    displayMode := "opportunity", savingsMs := some 400,
    numericValue := none, numericUnit := none }

/-- A titled, non-opportunity audit with score 0.3: it lands in the
other bucket of `_extract_recommendations`. -/
def otherAudit : Audit :=
  { title := some ("Fix it"), score := some (3/10), scoreDisplayMode := none,
    displayValue := none, detailsType := none }

/-- Eleven distinct audits that all land in the other bucket. -/
def elevenOthers : List (String × Audit) :=
  [("a00", otherAudit), ("a01", otherAudit), ("a02", otherAudit),
   ("a03", otherAudit), ("a04", otherAudit), ("a05", otherAudit),
   ("a06", otherAudit), ("a07", otherAudit), ("a08", otherAudit),
   ("a09", otherAudit), ("a10", otherAudit)]

/-- The three cookie-related recommendation strings of
`analyze_security` (lines 339-353). -/
def cookieRecStrings : List String :=
  ["Додайте атрибут \x27Secure\x27 до всіх cookie для захисту передачі даних",
   "Додайте атрибут \x27HttpOnly\x27 до всіх cookie для захисту від XSS атак",
   "Додайте атрибут \x27SameSite\x27 до cookie для захисту від CSRF атак"]

/-- A cookie carrying Secure, with HttpOnly and SameSite=Lax stored
inside `_rest`, as `requests` stores them. -/
def secHttpCookie : Cookie :=
  { name := "session", secure := true,
    rest := [("HttpOnly", none), ("SameSite", (some ("Lax")))] }

/-- A response that sets exactly one cookie. -/
def oneCookieResponse : SecResponse :=
  { finalUrl := "https://example.com/", headers := [],
    cookies := [secHttpCookie] }

/-- A device result whose recommendation list is present but empty. -/
def emptyRecResults : DeviceResults :=
  { score := some 45, metrics := none, recommendations := some [] }

theorem specClassify_priority (e : SpecAuditEntry) (r : SpecRecommendation)
    (h : specClassify e = some r) :
    r.priority = priorityScore r.impact r.difficulty := by
  unfold specClassify at h
  cases ht : e.title with
  | none => rw [ht] at h; exact absurd h (by simp)
  | some t =>
    rw [ht] at h
    by_cases h1 : e.score = some 1
    · simp [h1] at h
    · by_cases h2 : e.displayMode ∈ allowedDisplayModes
      · simp [h1, h2] at h
        cases h
        rfl
      · simp [h1, h2] at h

theorem extractBuckets_eq_filterMap (audits : List (String × Audit)) :
    extractBuckets audits =
      (audits.filterMap critPick, audits.filterMap impPick, audits.filterMap othPick) := by
  induction audits with
  | nil => rfl
  | cons p rest ih =>
    obtain ⟨aid, a⟩ := p
    simp only [extractBuckets, ih, List.filterMap_cons]
    cases ht : a.title with
    | none => simp [critPick, impPick, othPick, ht]
    | some t =>
      by_cases h1 : a.score = some 1
      · simp [critPick, impPick, othPick, ht, h1]
      · by_cases h2 : a.detailsType = some ("opportunity")
        · by_cases h3 : a.score.getD 1 = 0 ∨ aid ∈ criticalIds
          · simp [critPick, impPick, othPick, ht, h1, h2, h3]
          · by_cases h4 : a.score.getD 1 ≤ 0.5
            · simp [critPick, impPick, othPick, ht, h1, h2, h3, h4]
            · simp [critPick, impPick, othPick, ht, h1, h2, h3, h4]
        · by_cases h4 : a.score.getD 1 ≤ 0.5
          · simp [critPick, impPick, othPick, ht, h1, h2, h4]
          · simp [critPick, impPick, othPick, ht, h1, h2, h4]

theorem specClassify_impact (e : SpecAuditEntry) (r : SpecRecommendation)
    (h : specClassify e = some r) :
    r.impact = impactLevel (savingsOf e) := by
  unfold specClassify at h
  cases ht : e.title with
  | none => rw [ht] at h; exact absurd h (by simp)
  | some t =>
    rw [ht] at h
    by_cases h1 : e.score = some 1
    · simp [h1] at h
    · by_cases h2 : e.displayMode ∈ allowedDisplayModes
      · simp [h1, h2] at h
        cases h
        rfl
      · simp [h1, h2] at h

theorem specClassify_entry1500 : specClassify entry1500 = some rec1500 := by
  have hlk : lookupDC ("some-audit-a") = (Difficulty.medium, Category.other) := by decide
  norm_num [specClassify, entry1500, rec1500, savingsOf, impactLevel, hlk,
    allowedDisplayModes, priorityScore, impactWeight, difficultyWeight]

theorem specClassify_entryEasy : specClassify entryEasy = some recEasy := by
  have hlk : lookupDC ("uses-optimized-images") = (Difficulty.easy, Category.images) := by decide
  norm_num [specClassify, entryEasy, recEasy, savingsOf, impactLevel, hlk,
    allowedDisplayModes, priorityScore, impactWeight, difficultyWeight]

theorem specClassify_entryRBR : specClassify entryRBR = some recRBR := by
  have hlk : lookupDC ("render-blocking-resources") = (Difficulty.hard, Category.performance) := by decide
  norm_num [specClassify, entryRBR, recRBR, savingsOf, impactLevel, hlk,
    allowedDisplayModes, priorityScore, impactWeight, difficultyWeight]

/-- Claim C6 (amended): for every metric carrying a score s, the
rating is good iff s ≥ 0.9, average iff 0.5 ≤ s < 0.9, and poor iff
s < 0.5; for a metric without a score the rating is the metric's
`scoreDisplayMode` when present and `not_available` only when that is
absent too. -/
theorem metric_rating_thresholds (m : Audit) :
    (∀ s : ℚ, m.score = some s →
      ((getMetricRating m = "good" ↔ 0.9 ≤ s) ∧
       (getMetricRating m = "average" ↔ (0.5 ≤ s ∧ s < 0.9)) ∧
       (getMetricRating m = "poor" ↔ s < 0.5))) ∧
    (m.score = none → getMetricRating m = m.scoreDisplayMode.getD ("not_available")) := by
  constructor
  · intro s hs
    simp only [getMetricRating, hs]
    by_cases h1 : s ≥ 0.9
    · rw [if_pos h1]
      exact ⟨⟨fun _ => h1, fun _ => rfl⟩,
             ⟨fun hh => absurd hh (by decide), fun hh => absurd hh.2 (not_lt.mpr h1)⟩,
             ⟨fun hh => absurd hh (by decide),
              fun hh => absurd hh (not_lt.mpr (le_trans (by norm_num) h1))⟩⟩
    · by_cases h2 : s ≥ 0.5
      · rw [if_neg h1, if_pos h2]
        exact ⟨⟨fun hh => absurd hh (by decide), fun hh => absurd hh h1⟩,
               ⟨fun _ => ⟨h2, not_le.mp h1⟩, fun _ => rfl⟩,
               ⟨fun hh => absurd hh (by decide), fun hh => absurd hh (not_lt.mpr h2)⟩⟩
      · rw [if_neg h1, if_neg h2]
        exact ⟨⟨fun hh => absurd hh (by decide), fun hh => absurd hh h1⟩,
               ⟨fun hh => absurd hh (by decide), fun hh => absurd hh.1 h2⟩,
               ⟨fun _ => not_le.mp h2, fun _ => rfl⟩⟩
  · intro hn
    simp [getMetricRating, hn]

/-- Claim C6 counterexample: a metric whose score is absent but whose
`scoreDisplayMode` is `binary` is rated `binary`, not
`not_available`, refuting the claimed biconditional between absence
and `not_available`. -/
theorem metric_rating_counterexample :
    metricNoScore.score = none ∧ getMetricRating metricNoScore = "binary" ∧
    getMetricRating metricNoScore ≠ "not_available" := by decide

theorem metric_rating_thresholds_witness : getMetricRating metric95 = "good" :=
  ((metric_rating_thresholds metric95).1 (95/100) rfl).1.mpr (by norm_num)

/-- Claim C4: an entry processed by the prioritizer gets impact high
iff its computed savings reach 1000 ms, medium iff they lie in
[250, 1000) ms and low iff below 250 ms; declared savings of 1500,
500 and 100 ms give high, medium and low. -/
theorem impact_thresholds :
    (∀ (e : SpecAuditEntry) (r : SpecRecommendation), specClassify e = some r →
      ((r.impact = .high ↔ 1000 ≤ savingsOf e) ∧
       (r.impact = .medium ↔ (250 ≤ savingsOf e ∧ savingsOf e < 1000)) ∧
       (r.impact = .low ↔ savingsOf e < 250))) ∧
    (specClassify entry1500).map SpecRecommendation.impact = some .high ∧
    (specClassify entry500).map SpecRecommendation.impact = some .medium ∧
    (specClassify entry100).map SpecRecommendation.impact = some .low := by
  refine ⟨?_,
    by norm_num [specClassify, entry1500, savingsOf, impactLevel, allowedDisplayModes],
    by norm_num [specClassify, entry500, savingsOf, impactLevel, allowedDisplayModes],
    by norm_num [specClassify, entry100, savingsOf, impactLevel, allowedDisplayModes]⟩
  intro e r h
  rw [specClassify_impact e r h]
  unfold impactLevel
  by_cases h1 : savingsOf e ≥ 1000
  · rw [if_pos h1]
    exact ⟨⟨fun _ => h1, fun _ => rfl⟩,
           ⟨fun hh => absurd hh (by decide), fun hh => absurd hh.2 (not_lt.mpr h1)⟩,
           ⟨fun hh => absurd hh (by decide),
            fun hh => absurd hh (not_lt.mpr (le_trans (by norm_num) h1))⟩⟩
  · by_cases h2 : savingsOf e ≥ 250
    · rw [if_neg h1, if_pos h2]
      exact ⟨⟨fun hh => absurd hh (by decide), fun hh => absurd hh h1⟩,
             ⟨fun _ => ⟨h2, not_le.mp h1⟩, fun _ => rfl⟩,
             ⟨fun hh => absurd hh (by decide), fun hh => absurd hh (not_lt.mpr h2)⟩⟩
    · rw [if_neg h1, if_neg h2]
      exact ⟨⟨fun hh => absurd hh (by decide), fun hh => absurd hh h1⟩,
             ⟨fun hh => absurd hh (by decide), fun hh => absurd hh.1 h2⟩,
             ⟨fun _ => not_le.mp h2, fun _ => rfl⟩⟩

theorem impact_thresholds_witness : rec1500.impact = Impact.high :=
  (impact_thresholds.1 entry1500 rec1500 specClassify_entry1500).1.mpr
    (by norm_num [savingsOf, entry1500])

/-- Claim C3: the prioritizer discards exactly the entries with no
title, a perfect score of 1, or a display mode outside
{opportunity, numeric, binary}; every other entry yields a
recommendation. -/
theorem prioritizer_filter (e : SpecAuditEntry) :
    (specClassify e = none ↔
      (e.title = none ∨ e.score = some 1 ∨ ¬ e.displayMode ∈ allowedDisplayModes)) ∧
    ((e.title ≠ none ∧ e.score ≠ some 1 ∧ e.displayMode ∈ allowedDisplayModes) →
      ∃ r, specClassify e = some r) := by
  unfold specClassify
  cases ht : e.title with
  | none => simp
  | some t =>
    by_cases h1 : e.score = some 1
    · simp [h1]
    · by_cases h2 : e.displayMode ∈ allowedDisplayModes
      · simp [h1, h2]
      · simp [h1, h2]

theorem prioritizer_filter_witness : specClassify entryNoTitle = none :=
  (prioritizer_filter entryNoTitle).1.mpr (Or.inl rfl)

/-- Claim C1: among classified recommendations, a high-impact easy one
strictly outranks a high-impact hard one, and the priority score is
strictly increasing in impact weight and strictly decreasing in
difficulty weight. -/
theorem priority_strict_ordering :
    (∀ (a b : SpecAuditEntry) (ra rb : SpecRecommendation),
      specClassify a = some ra → specClassify b = some rb →
      ra.impact = .high → ra.difficulty = .easy →
      rb.impact = .high → rb.difficulty = .hard →
      ra.priority > rb.priority) ∧
    (∀ (i : Impact) (d d' : Difficulty),
      difficultyWeight d < difficultyWeight d' →
      priorityScore i d > priorityScore i d') ∧
    (∀ (i i' : Impact) (d : Difficulty),
      impactWeight i < impactWeight i' →
      priorityScore i d < priorityScore i' d) := by
  refine ⟨?_, ?_, ?_⟩
  · intro a b ra rb ha hb hia hda hib hdb
    rw [specClassify_priority a ra ha, specClassify_priority b rb hb,
        hia, hda, hib, hdb]
    norm_num [priorityScore, impactWeight, difficultyWeight]
  · intro i d d' h
    cases i <;> cases d <;> cases d' <;>
      norm_num [priorityScore, impactWeight, difficultyWeight] at h ⊢
  · intro i i' d h
    cases i <;> cases i' <;> cases d <;>
      norm_num [priorityScore, impactWeight, difficultyWeight] at h ⊢

theorem priority_strict_ordering_witness : recEasy.priority > recRBR.priority :=
  priority_strict_ordering.1 entryEasy entryRBR recEasy recRBR
    specClassify_entryEasy specClassify_entryRBR rfl rfl rfl rfl

/-- Claim C5 (amended): the render-blocking-resources entry with score
0, opportunity display mode and 1200 ms savings is classified impact
high, difficulty hard, category performance; unknown identifiers
default to difficulty medium and category other; and a high-impact
easy recommendation outranks it (it does not outrank them). -/
theorem render_blocking_classification :
    specClassify entryRBR = some recRBR ∧
    recRBR.impact = .high ∧ recRBR.difficulty = .hard ∧
    recRBR.category = .performance ∧
    lookupDC ("unknown-audit-id") = (Difficulty.medium, Category.other) ∧
    priorityScore Impact.high Difficulty.easy > recRBR.priority := by
  refine ⟨specClassify_entryRBR, rfl, rfl, rfl, by decide, ?_⟩
  norm_num [priorityScore, impactWeight, difficultyWeight, recRBR]

/-- Claim C5 counterexample: a concrete high-impact easy
recommendation has priority 3.03 while the render-blocking one has
1.03, so the render-blocking entry does not outrank a
high-impact/easy entry — the claimed ordering is reversed. -/
theorem render_blocking_counterexample :
    specClassify entryRBR = some recRBR ∧
    specClassify entryEasy = some recEasy ∧
    recEasy.impact = Impact.high ∧ recEasy.difficulty = Difficulty.easy ∧
    ¬ recRBR.priority > recEasy.priority := by
  refine ⟨specClassify_entryRBR, specClassify_entryEasy, rfl, rfl, ?_⟩
  norm_num [recRBR, recEasy]

/-- Claim C2 (amended): when the security sub-check fails, the
aggregate still carries the pagespeed, seo and accessibility results
populated, while the security key remains present and bound to the
initial empty-dictionary placeholder instead of being absent. -/
theorem aggregate_partial_on_failure (p₁ p₂ p₃ p₄ m : String) :
    analyzeWithAllMetrics (.succeeded p₁) (.succeeded p₂) (.succeeded p₃)
        (.succeeded p₄) (.failed m) =
      [("pagespeed", .dict [("mobile", p₁), ("desktop", p₂)]),
       ("seo", .payload p₃),
       ("accessibility", .payload p₄),
       ("security", .dict [])] := rfl

/-- Claim C2 counterexample: with security failing and the other four
sub-checks succeeding, the returned aggregate still contains the
`security` key (bound to the empty dictionary), refuting the claim
that the failed sub-check's key is absent. -/
theorem aggregate_failed_key_present :
    (analyzeWithAllMetrics (.succeeded ("m")) (.succeeded ("d")) (.succeeded ("s"))
        (.succeeded ("a")) (.failed ("timeout"))).lookup ("security") =
      some (AggVal.dict []) ∧
    ¬ (analyzeWithAllMetrics (.succeeded ("m")) (.succeeded ("d")) (.succeeded ("s"))
        (.succeeded ("a")) (.failed ("timeout"))).lookup ("security") = none := by
  decide

/-- Claim C7: analyze always returns either a well-formed result or an
error marker; a transport failure is surfaced as the request-error
message, and a payload without `lighthouseResult` as the
missing-results message — no input reaches any other outcome. -/
theorem analyze_returns_marker :
    (∀ t : Except String ApiData,
      (∃ r, analyze t = AnalyzeResult.ok r) ∨ (∃ m, analyze t = AnalyzeResult.err m)) ∧
    (∀ e : String, analyze (Except.error e) =
      AnalyzeResult.err ("Помилка під час запиту до API: " ++ e)) ∧
    analyze (Except.ok { apiError := none, lighthouseResult := none }) =
      AnalyzeResult.err ("У відповіді API відсутні результати Lighthouse") := by
  refine ⟨?_, fun e => rfl, rfl⟩
  intro t
  obtain e | data := t
  · exact Or.inr ⟨_, rfl⟩
  · obtain ⟨ae, lr⟩ := data
    obtain _ | msg := ae
    · obtain _ | lrv := lr
      · exact Or.inr ⟨_, rfl⟩
      · obtain ⟨ps, au⟩ := lrv
        obtain _ | s := ps
        · exact Or.inr ⟨_, rfl⟩
        · obtain _ | audits := au
          · exact Or.inr ⟨_, rfl⟩
          · exact Or.inl ⟨_, rfl⟩
    · exact Or.inr ⟨_, rfl⟩

theorem extractBuckets_cons_otherAudit (aid : String) (rest : List (String × Audit)) :
    extractBuckets ((aid, otherAudit) :: rest) =
      ((extractBuckets rest).1, (extractBuckets rest).2.1,
        "Fix it" :: (extractBuckets rest).2.2) := by
  have ht : otherAudit.title = some ("Fix it") := rfl
  have hs : otherAudit.score = some (3/10) := rfl
  have hd : otherAudit.detailsType = none := rfl
  simp only [extractBuckets, ht, hs, hd]
  norm_num
  intro h
  exact Option.noConfusion h

theorem extractBuckets_elevenOthers :
    extractBuckets elevenOthers =
      ([], [], ["Fix it", "Fix it", "Fix it", "Fix it", "Fix it", "Fix it",
                "Fix it", "Fix it", "Fix it", "Fix it", "Fix it"]) := by
  have h0 : extractBuckets ([] : List (String × Audit)) = ([], [], []) := rfl
  simp only [elevenOthers, extractBuckets_cons_otherAudit, h0]

/-- Claim C9: the flat recommendation list is exactly the critical
titles, then the important titles, then at most the first ten other
titles, while the reported priority counts are the untruncated bucket
sizes; on eleven other-bucket entries only ten recommendations are
listed but the other count reads eleven. -/
theorem recommendations_flat_shape :
    (∀ audits : List (String × Audit),
      (extractRecommendations audits).1 =
        audits.filterMap critPick ++ audits.filterMap impPick ++
          (audits.filterMap othPick).take 10 ∧
      (extractRecommendations audits).2 =
        ((audits.filterMap critPick).length, (audits.filterMap impPick).length,
          (audits.filterMap othPick).length) ∧
      ((audits.filterMap othPick).take 10).length ≤ 10) ∧
    (extractRecommendations elevenOthers).1.length = 10 ∧
    (extractRecommendations elevenOthers).2.2.2 = 11 := by
  refine ⟨?_, ?_, ?_⟩
  · intro audits
    have h := extractBuckets_eq_filterMap audits
    simp only [extractRecommendations, h]
    exact ⟨trivial, trivial, List.length_take_le 10 _⟩
  · have hb := extractBuckets_elevenOthers
    simp [extractRecommendations, hb]
  · have hb := extractBuckets_elevenOthers
    simp [extractRecommendations, hb]

theorem jarGet_cookieObj (jar : List Cookie) (c : Cookie) :
    jarGet jar (.cookieObj c) = .error ("KeyError") := by
  unfold jarGet
  have h : jar.find? (keyMatches (.cookieObj c)) = none :=
    List.find?_eq_none.mpr (fun x _ => by simp [keyMatches])
  rw [h]

theorem analyzeCookies_cons (c : Cookie) (rest : List Cookie) :
    analyzeCookies (c :: rest) = .error ("KeyError") := by
  simp [analyzeCookies, cookieCounts, jarGet_cookieObj]

/-- Claim C10 (code bug): with no cookies the analysis reports count 0
and all three flags vacuously true, but for every response that sets
at least one cookie the jar lookup `cookies[cookie]` — indexing by
name string with a Cookie object — raises KeyError on the first loop
iteration, so the per-attribute flags are never computed and
`analyze_security` returns the error dictionary instead of a
result (no recommendations at all). -/
theorem cookie_analysis_keyerror :
    analyzeCookies [] =
      Except.ok { count := 0, secure := true, httponly := true, samesite := true } ∧
    analyzeCookies [secHttpCookie] = Except.error ("KeyError") ∧
    (∀ (c : Cookie) (rest : List Cookie),
      analyzeCookies (c :: rest) = Except.error ("KeyError")) ∧
    (∀ (url : String) (resp : SecResponse) (c : Cookie) (rest : List Cookie),
      resp.cookies = c :: rest →
      analyzeSecurity url resp =
        Except.error ("Помилка при аналізі безпеки: " ++ "KeyError")) := by
  refine ⟨rfl, analyzeCookies_cons _ _, analyzeCookies_cons, ?_⟩
  intro url resp c rest hcs
  unfold analyzeSecurity
  rw [hcs, analyzeCookies_cons]

theorem cookie_analysis_keyerror_witness :
    analyzeSecurity ("https://example.com") oneCookieResponse =
      Except.error ("Помилка при аналізі безпеки: " ++ "KeyError") :=
  cookie_analysis_keyerror.2.2.2 ("https://example.com") oneCookieResponse
    secHttpCookie [] rfl

theorem metricsPart_mem (r : Option DeviceResults) (title : String) (e : PdfElem)
    (he : e ∈ metricsPart r title) :
    e = .heading title ∨ e = .spacer ∨ ∃ rows, e = .table rows := by
  cases r with
  | none => simp [metricsPart] at he
  | some dr =>
    cases hm : dr.metrics with
    | none => simp [metricsPart, hm] at he
    | some ms =>
      simp only [metricsPart, hm] at he
      unfold metricsSection at he
      by_cases hms : ms = []
      · rw [if_pos hms] at he; simp at he
      · rw [if_neg hms] at he
        simp only [List.mem_cons, List.not_mem_nil, or_false] at he
        rcases he with rfl | rfl | rfl | rfl
        · exact Or.inl rfl
        · exact Or.inr (Or.inl rfl)
        · exact Or.inr (Or.inr ⟨_, rfl⟩)
        · exact Or.inr (Or.inl rfl)

/-- Claim C8: when the recommendation lists of both devices are empty, the
recommendations section contributes nothing to the document — neither
its heading nor the priority-legend subheading appears anywhere in
the generated element list. -/
theorem report_omits_empty_recommendations (url now : String) (m d : DeviceResults)
    (hm : m.recommendations.getD [] = []) (hd : d.recommendations.getD [] = []) :
    addRecommendationsSection (m.recommendations.getD []) (d.recommendations.getD []) = [] ∧
    ∀ e ∈ generateReport url now (some m) (some d),
      e ≠ PdfElem.heading ("Рекомендації щодо оптимізації") ∧
      e ≠ PdfElem.subheading ("Пріоритети рекомендацій:") := by
  have hsec : addRecommendationsSection (m.recommendations.getD [])
      (d.recommendations.getD []) = [] := by
    rw [hm, hd]
    rfl
  refine ⟨hsec, ?_⟩
  intro e he
  simp only [generateReport] at he
  rw [hsec] at he
  simp only [List.append_nil, List.append_assoc] at he
  rcases List.mem_append.mp he with h | he
  · simp only [headerSection, List.mem_cons, List.not_mem_nil, or_false] at h
    rcases h with rfl | rfl | rfl | rfl | rfl <;>
      exact ⟨by first | exact fun hc => PdfElem.noConfusion hc | decide,
             by first | exact fun hc => PdfElem.noConfusion hc | decide⟩
  · rcases List.mem_append.mp he with h | he
    · simp only [scoresSection, List.mem_cons, List.not_mem_nil, or_false] at h
      rcases h with rfl | rfl | rfl | rfl <;>
        exact ⟨by first | exact fun hc => PdfElem.noConfusion hc | decide,
               by first | exact fun hc => PdfElem.noConfusion hc | decide⟩
    · rcases List.mem_append.mp he with h | he
      · rcases metricsPart_mem _ _ _ h with rfl | rfl | ⟨rows, rfl⟩ <;>
          exact ⟨by first | exact fun hc => PdfElem.noConfusion hc | decide,
                 by first | exact fun hc => PdfElem.noConfusion hc | decide⟩
      · rcases List.mem_append.mp he with h | h
        · rcases metricsPart_mem _ _ _ h with rfl | rfl | ⟨rows, rfl⟩ <;>
            exact ⟨by first | exact fun hc => PdfElem.noConfusion hc | decide,
                   by first | exact fun hc => PdfElem.noConfusion hc | decide⟩
        · simp only [chartSection, List.mem_cons, List.not_mem_nil, or_false] at h
          rcases h with rfl | rfl | rfl | rfl <;>
            exact ⟨by first | exact fun hc => PdfElem.noConfusion hc | decide,
                   by first | exact fun hc => PdfElem.noConfusion hc | decide⟩

theorem report_omits_empty_recommendations_witness :
    addRecommendationsSection (emptyRecResults.recommendations.getD [])
      (emptyRecResults.recommendations.getD []) = [] :=
  (report_omits_empty_recommendations ("https://example.com") ("07.05.2025 12:00")
    emptyRecResults emptyRecResults rfl rfl).1
